import Mathlib

/-!
Shallow embedding of the `sdl-bpmn` library (TypeScript) for specification
checking: color palette constants (`src/theme/colors.ts`), theme/CSS
generation (`src/theme/ornl-theme.ts`), BPMN XML validation and SVG
generation (`src/core/svg-generator.ts` plus the unnamed variant module),
and file loading with caching (`src/utils/file-loader.ts`).

Effectful operations (fetch, the bpmn-js engine, DOM teardown) are
parameterized by explicit oracle records describing the outcome of each
external call, so every function here is pure and executable.
-/

namespace SdlBpmn

/-- Does `pat` occur as a contiguous run inside `l`? -/
def includesAux (pat : List Char) : List Char → Bool
  | [] => pat.isEmpty
  | l@(_ :: rest) => pat.isPrefixOf l || includesAux pat rest

/-- JS `String.prototype.includes`: substring containment. -/
def includes (s pat : String) : Bool :=
  includesAux pat.data s.data

/-- Number of occurrences of character `c` in `s`, modelling
`(s.match(/c/g) || []).length`. -/
def countChar (s : String) (c : Char) : Nat :=
  s.data.count c

/-- The whitespace characters stripped by JS `String.prototype.trim`
(ASCII subset). -/
def jsIsSpace (c : Char) : Bool :=
  c == ' ' || c == '\t' || c == '\n' || c == '\r' || c == '\x0b' || c == '\x0c'

/-- JS `String.prototype.trim`: strip whitespace from both ends. -/
def jsTrim (s : String) : String :=
  String.mk (((s.data.dropWhile jsIsSpace).reverse.dropWhile jsIsSpace).reverse)

/-- JS `String.prototype.startsWith`. -/
def jsStartsWith (s pre : String) : Bool :=
  pre.data.isPrefixOf s.data

/-- A generic JS `Error`, reduced to its message (used as the `cause` of
wrapped errors and as the failure value of external calls). -/
structure JsError where
  message : String
deriving DecidableEq, Repr

/-! ## `src/theme/colors.ts` (unnamed part_001) -/

/-- Shape of the `ORNL_COLORS` constant. -/
structure OrnlColors where
  PRIMARY : String
  SECONDARY : String
  NEUTRAL : String
  TEXT_PRIMARY : String
  WHITE : String
  BLACK : String
deriving DecidableEq, Repr

/-- `ORNL_COLORS` from `src/theme/colors.ts`. -/
def ORNL_COLORS : OrnlColors :=
  { PRIMARY := "#00662C"
    SECONDARY := "#00454D"
    NEUTRAL := "#DBDCDB"
    TEXT_PRIMARY := "#373A36"
    WHITE := "#FFFFFF"
    BLACK := "#000000" }

/-- Shape of the `ORNL_ACCENTS` constant. -/
structure OrnlAccents where
  FORGE : String
  SPARK : String
  PLASMA : String
  PULSAR : String
deriving DecidableEq, Repr

/-- `ORNL_ACCENTS` from `src/theme/colors.ts`. -/
def ORNL_ACCENTS : OrnlAccents :=
  { FORGE := "#FE5000"
    SPARK := "#F5B800"
    PLASMA := "#0077C8"
    PULSAR := "#702F8A" }

/-- Shape of the `BPMN_SEMANTIC_COLORS` constant. -/
structure BpmnSemanticColors where
  START_EVENT : String
  END_EVENT : String
  TASK : String
  GATEWAY : String
  SEQUENCE_FLOW : String
  POOL : String
  TEXT : String
  BORDER : String
  BACKGROUND : String
  ERROR : String
  HIGHLIGHT : String
deriving DecidableEq, Repr

/-- `BPMN_SEMANTIC_COLORS` from `src/theme/colors.ts`: defined by reference
to the palette and accent constants, exactly as in the source. -/
def BPMN_SEMANTIC_COLORS : BpmnSemanticColors :=
  { START_EVENT := ORNL_ACCENTS.SPARK
    END_EVENT := ORNL_ACCENTS.FORGE
    TASK := ORNL_COLORS.PRIMARY
    GATEWAY := ORNL_ACCENTS.PLASMA
    SEQUENCE_FLOW := ORNL_COLORS.TEXT_PRIMARY
    POOL := ORNL_COLORS.NEUTRAL
    TEXT := ORNL_COLORS.TEXT_PRIMARY
    BORDER := ORNL_COLORS.SECONDARY
    BACKGROUND := ORNL_COLORS.WHITE
    ERROR := ORNL_ACCENTS.FORGE
    HIGHLIGHT := ORNL_ACCENTS.PULSAR }

/-- All values of `ORNL_COLORS` and `ORNL_ACCENTS`, in declaration order. -/
def allPaletteValues : List String :=
  [ORNL_COLORS.PRIMARY, ORNL_COLORS.SECONDARY, ORNL_COLORS.NEUTRAL,
   ORNL_COLORS.TEXT_PRIMARY, ORNL_COLORS.WHITE, ORNL_COLORS.BLACK,
   ORNL_ACCENTS.FORGE, ORNL_ACCENTS.SPARK, ORNL_ACCENTS.PLASMA,
   ORNL_ACCENTS.PULSAR]

/-- One character of a case-insensitive hexadecimal digit (`[0-9A-F]` with
the `i` flag). -/
def isHexDigitCI (c : Char) : Bool :=
  c.isDigit || ('A' ≤ c && c ≤ 'F') || ('a' ≤ c && c ≤ 'f')

/-- The regular expression `^#[0-9A-F]{6}$` with the case-insensitive flag,
as a decidable predicate on strings. -/
def matchesHexColor (s : String) : Bool :=
  match s.data with
  | '#' :: rest => rest.length == 6 && rest.all isHexDigitCI
  | _ => false

/-! ## `src/theme/ornl-theme.ts` -/

/-- `BpmnThemeOptions`: every field optional (`none` models an absent
property). -/
structure BpmnThemeOptions where
  primaryColor : Option String := none
  secondaryColor : Option String := none
  backgroundColor : Option String := none
  textColor : Option String := none
  errorColor : Option String := none
  fontFamily : Option String := none
  fontSize : Option String := none
  borderWidth : Option String := none
  borderRadius : Option String := none
deriving DecidableEq, Repr

/-- `Required<BpmnThemeOptions>`: the fully-populated theme record. -/
structure BpmnTheme where
  primaryColor : String
  secondaryColor : String
  backgroundColor : String
  textColor : String
  errorColor : String
  fontFamily : String
  fontSize : String
  borderWidth : String
  borderRadius : String
deriving DecidableEq, Repr

/-- `DEFAULT_ORNL_THEME` from `src/theme/ornl-theme.ts`. -/
def DEFAULT_ORNL_THEME : BpmnTheme :=
  { primaryColor := ORNL_COLORS.PRIMARY
    secondaryColor := ORNL_COLORS.SECONDARY
    backgroundColor := ORNL_COLORS.WHITE
    textColor := ORNL_COLORS.TEXT_PRIMARY
    errorColor := BPMN_SEMANTIC_COLORS.ERROR
    fontFamily := "Inter, system-ui, -apple-system, sans-serif"
    fontSize := "12px"
    borderWidth := "1.5px"
    borderRadius := "4px" }

/-- The object spread `{ ...base, ...options }`: a field present in
`options` overwrites the one from `base` (shallow, last-write-wins). -/
def spreadTheme (base : BpmnTheme) (o : BpmnThemeOptions) : BpmnTheme :=
  { primaryColor := o.primaryColor.getD base.primaryColor
    secondaryColor := o.secondaryColor.getD base.secondaryColor
    backgroundColor := o.backgroundColor.getD base.backgroundColor
    textColor := o.textColor.getD base.textColor
    errorColor := o.errorColor.getD base.errorColor
    fontFamily := o.fontFamily.getD base.fontFamily
    fontSize := o.fontSize.getD base.fontSize
    borderWidth := o.borderWidth.getD base.borderWidth
    borderRadius := o.borderRadius.getD base.borderRadius }

/-- View of a full theme record as an options object whose every property
is present (used where the source passes `DEFAULT_ORNL_THEME`, a fully
populated object, where a `BpmnThemeOptions` is expected). -/
def themeToOptions (t : BpmnTheme) : BpmnThemeOptions :=
  { primaryColor := some t.primaryColor
    secondaryColor := some t.secondaryColor
    backgroundColor := some t.backgroundColor
    textColor := some t.textColor
    errorColor := some t.errorColor
    fontFamily := some t.fontFamily
    fontSize := some t.fontSize
    borderWidth := some t.borderWidth
    borderRadius := some t.borderRadius }

/-- `generateOrnlCssVariables` from `src/theme/ornl-theme.ts`. -/
def generateOrnlCssVariables (options : BpmnThemeOptions := {}) : String :=
  let theme := spreadTheme DEFAULT_ORNL_THEME options
  String.intercalate "; "
    [ "--ornl-primary: " ++ theme.primaryColor,
      "--ornl-secondary: " ++ theme.secondaryColor,
      "--ornl-background: " ++ theme.backgroundColor,
      "--ornl-text: " ++ theme.textColor,
      "--ornl-error: " ++ theme.errorColor,
      "--ornl-font-family: " ++ theme.fontFamily,
      "--ornl-font-size: " ++ theme.fontSize,
      "--ornl-border-width: " ++ theme.borderWidth,
      "--ornl-border-radius: " ++ theme.borderRadius,
      "--bpmn-start-event: " ++ BPMN_SEMANTIC_COLORS.START_EVENT,
      "--bpmn-end-event: " ++ BPMN_SEMANTIC_COLORS.END_EVENT,
      "--bpmn-task: " ++ BPMN_SEMANTIC_COLORS.TASK,
      "--bpmn-gateway: " ++ BPMN_SEMANTIC_COLORS.GATEWAY,
      "--bpmn-sequence-flow: " ++ BPMN_SEMANTIC_COLORS.SEQUENCE_FLOW,
      "--bpmn-pool: " ++ BPMN_SEMANTIC_COLORS.POOL,
      "--bpmn-border: " ++ BPMN_SEMANTIC_COLORS.BORDER,
      "--bpmn-highlight: " ++ BPMN_SEMANTIC_COLORS.HIGHLIGHT ]

/-- `generateOrnlBpmnStyles` from `src/theme/ornl-theme.ts`: the complete
stylesheet template with the CSS variables spliced in (braces written as
`\x7b`/`\x7d`). -/
def generateOrnlBpmnStyles (options : BpmnThemeOptions := {}) : String :=
  let cssVars := generateOrnlCssVariables options
  "\n/* ORNL BPMN Theme - Generated Styles */\n.bpmn-diagram.ornl-theme \x7b\n  "
  ++ cssVars ++
  ";\n  \n  /* Container styling */\n  background: var(--ornl-background);\n  border: var(--ornl-border-width) solid var(--ornl-secondary);\n  border-radius: var(--ornl-border-radius);\n  font-family: var(--ornl-font-family);\n  font-size: var(--ornl-font-size);\n  overflow: hidden;\n\x7d\n\n/* BPMN Element Styling */\n.bpmn-diagram.ornl-theme .djs-element \x7b\n  color: var(--ornl-text);\n\x7d\n\n/* Task Elements */\n.bpmn-diagram.ornl-theme .djs-element[data-element-id] rect.djs-visual \x7b\n  fill: var(--ornl-background);\n  stroke: var(--bpmn-task);\n  stroke-width: var(--ornl-border-width);\n\x7d\n\n/* Start Events */\n.bpmn-diagram.ornl-theme .djs-element[data-element-id*=\"StartEvent\"] circle \x7b\n  fill: var(--bpmn-start-event);\n  stroke: var(--ornl-secondary);\n  stroke-width: var(--ornl-border-width);\n\x7d\n\n/* End Events */\n.bpmn-diagram.ornl-theme .djs-element[data-element-id*=\"EndEvent\"] circle \x7b\n  fill: var(--bpmn-end-event);\n  stroke: var(--ornl-secondary);\n  stroke-width: var(--ornl-border-width);\n\x7d\n\n/* Gateways */\n.bpmn-diagram.ornl-theme .djs-element[data-element-id*=\"Gateway\"] path \x7b\n  fill: var(--ornl-background);\n  stroke: var(--bpmn-gateway);\n  stroke-width: var(--ornl-border-width);\n\x7d\n\n/* Sequence Flows */\n.bpmn-diagram.ornl-theme .djs-element[data-element-id*=\"SequenceFlow\"] path \x7b\n  stroke: var(--bpmn-sequence-flow);\n  stroke-width: var(--ornl-border-width);\n  fill: none;\n\x7d\n\n/* Text Labels */\n.bpmn-diagram.ornl-theme .djs-label \x7b\n  font-family: var(--ornl-font-family);\n  font-size: var(--ornl-font-size);\n  color: var(--ornl-text);\n  fill: var(--ornl-text);\n\x7d\n\n/* Pools and Lanes */\n.bpmn-diagram.ornl-theme .djs-element[data-element-id*=\"Pool\"] rect,\n.bpmn-diagram.ornl-theme .djs-element[data-element-id*=\"Lane\"] rect \x7b\n  fill: var(--bpmn-pool);\n  stroke: var(--bpmn-border);\n  stroke-width: var(--ornl-border-width);\n\x7d\n\n/* Error States */\n.bpmn-diagram.ornl-theme .bpmn-error \x7b\n  border-color: var(--ornl-error);\n  background-color: rgba(254, 80, 0, 0.1); /* FORGE orange with opacity */\n\x7d\n\n/* Loading States */\n.bpmn-diagram.ornl-theme .bpmn-loading \x7b\n  display: flex;\n  align-items: center;\n  justify-content: center;\n  padding: 2rem;\n  color: var(--ornl-text);\n\x7d\n\n.bpmn-diagram.ornl-theme .bpmn-loading .spinner \x7b\n  width: 20px;\n  height: 20px;\n  border: 2px solid var(--ornl-secondary);\n  border-top: 2px solid var(--ornl-primary);\n  border-radius: 50%;\n  animation: ornl-spin 1s linear infinite;\n  margin-right: 0.5rem;\n\x7d\n\n@keyframes ornl-spin \x7b\n  0% \x7b transform: rotate(0deg); \x7d\n  100% \x7b transform: rotate(360deg); \x7d\n\x7d\n\n/* Responsive Design */\n@media (max-width: 768px) \x7b\n  .bpmn-diagram.ornl-theme \x7b\n    font-size: 10px;\n  \x7d\n\x7d\n\n@media (prefers-reduced-motion: reduce) \x7b\n  .bpmn-diagram.ornl-theme .spinner \x7b\n    animation: none;\n  \x7d\n\x7d\n"

/-! ## `src/core/svg-generator.ts`: validation -/

/-- The `{isValid, errors, warnings}` record returned by `validateBpmnXml`. -/
structure ValidationResult where
  isValid : Bool
  errors : List String
  warnings : List String
deriving DecidableEq, Repr

/-- `validateBpmnXml` from `src/core/svg-generator.ts` (the named module):
superficial checks accumulated into a structured result; it never throws. -/
def validateBpmnXml (bpmnXml : String) : ValidationResult :=
  if bpmnXml == "" then
    { isValid := false, errors := ["BPMN XML must be a non-empty string"], warnings := [] }
  else
    let errors :=
      (if !(jsStartsWith (jsTrim bpmnXml) "<") then
         ["Invalid XML: must start with opening tag"] else [])
      ++ (if !(includes bpmnXml "xmlns:bpmn") && !(includes bpmnXml "http://www.omg.org/spec/BPMN") then
            ["Invalid BPMN: missing BPMN namespace declaration"] else [])
      ++ (if !(includes bpmnXml "<definitions") && !(includes bpmnXml "<bpmn:definitions") then
            ["Invalid BPMN: missing definitions element"] else [])
    let warnings :=
      (if !(includes bpmnXml "<process") && !(includes bpmnXml "<bpmn:process") then
         ["BPMN appears to contain no process definitions"] else [])
      ++ (if countChar bpmnXml '<' != countChar bpmnXml '>' then
            ["XML structure may be malformed (unmatched tags)"] else [])
    { isValid := errors.isEmpty, errors := errors, warnings := warnings }

/-- The `SvgGenerationError` record (name, offending XML, wrapped cause). -/
structure SvgGenerationError where
  message : String
  bpmnXml : Option String := none
  cause : Option JsError := none
deriving DecidableEq, Repr

namespace Part002

/-- `validateBpmnXml` from the unnamed svg-generator variant module
(`src/unnamed/part_002`): the same checks, but each failing check is a
thrown `SvgGenerationError` (modelled as `Except.error`) instead of an
entry in the structured result. -/
def validateBpmnXml (bpmnXml : String) : Except SvgGenerationError ValidationResult :=
  if bpmnXml == "" then
    .error { message := "BPMN XML must be a non-empty string" }
  else if !(jsStartsWith (jsTrim bpmnXml) "<") then
    .error { message := "Invalid XML: must start with opening tag" }
  else if !(includes bpmnXml "<bpmn") && !(includes bpmnXml "<definitions") then
    .error { message := "Invalid BPMN XML: missing BPMN definitions" }
  else
    let warnings :=
      if countChar bpmnXml '<' != countChar bpmnXml '>' then
        ["XML structure may be malformed (unmatched tags)"] else []
    .ok { isValid := true, errors := [], warnings := warnings }

end Part002

/-! ## `src/core/svg-generator.ts`: SVG generation -/

/-- Caller-supplied `SvgGenerationOptions` (every field optional). -/
structure SvgGenerationOptions where
  theme : Option BpmnThemeOptions := none
  width : Option Nat := none
  height : Option Nat := none
  fitViewport : Option Bool := none
  zoom : Option Rat := none
  minZoom : Option Rat := none
  maxZoom : Option Rat := none
  additionalCss : Option String := none
  includeTheme : Option Bool := none
deriving DecidableEq, Repr

/-- `Required<SvgGenerationOptions>`: the merged configuration. -/
structure SvgConfig where
  theme : BpmnThemeOptions
  width : Nat
  height : Nat
  fitViewport : Bool
  zoom : Rat
  minZoom : Rat
  maxZoom : Rat
  additionalCss : String
  includeTheme : Bool
deriving DecidableEq, Repr

/-- `DEFAULT_SVG_OPTIONS` from `src/core/svg-generator.ts`. -/
def DEFAULT_SVG_OPTIONS : SvgConfig :=
  { theme := themeToOptions DEFAULT_ORNL_THEME
    width := 800
    height := 600
    fitViewport := true
    zoom := 1
    minZoom := Rat.mk' 1 5
    maxZoom := 4
    additionalCss := ""
    includeTheme := true }

/-- The object spread `{ ...DEFAULT_SVG_OPTIONS, ...options }`. -/
def spreadSvgOptions (base : SvgConfig) (o : SvgGenerationOptions) : SvgConfig :=
  { theme := o.theme.getD base.theme
    width := o.width.getD base.width
    height := o.height.getD base.height
    fitViewport := o.fitViewport.getD base.fitViewport
    zoom := o.zoom.getD base.zoom
    minZoom := o.minZoom.getD base.minZoom
    maxZoom := o.maxZoom.getD base.maxZoom
    additionalCss := o.additionalCss.getD base.additionalCss
    includeTheme := o.includeTheme.getD base.includeTheme }

/-- The result record of `generateStaticSVG`. -/
structure SvgGenerationResult where
  svg : String
  width : Int
  height : Int
  zoom : Rat
  processingTime : Nat
  warnings : List String
deriving DecidableEq, Repr

/-- Is there any `'>'` in the list? -/
def hasCloseChar : List Char → Bool
  | [] => false
  | c :: rest => c == '>' || hasCloseChar rest

/-- Does the regex `/<svg[^>]*>/` match somewhere in the text?  A match
exists exactly when some occurrence of `"<svg"` is followed (at any later
position) by a `'>'`. -/
def hasSvgOpenTag : List Char → Bool
  | [] => false
  | l@(_ :: rest) => ("<svg".data.isPrefixOf l && hasCloseChar (l.drop 4)) || hasSvgOpenTag rest

/-- `applyOrnlThemeToSvg` from `src/core/svg-generator.ts`: splice a
`<style>` block right after the first `'>'` of the document when an
`<svg ...>` open tag is present (the source uses `svg.indexOf('>') + 1`),
else prepend it. -/
def applyOrnlThemeToSvg (svg : String) (themeOptions : BpmnThemeOptions)
    (additionalCss : String := "") : String :=
  let ornlCss := generateOrnlBpmnStyles themeOptions
  let completeCss := String.intercalate "\n" ([ornlCss, additionalCss].filter (fun s => !s.isEmpty))
  let styleTag := "<style><![CDATA[" ++ completeCss ++ "]]></style>"
  if hasSvgOpenTag svg.data then
    let insertIndex := (svg.data.takeWhile (fun c => c != '>')).length + 1
    String.mk (svg.data.take insertIndex) ++ "\n" ++ styleTag ++ "\n"
      ++ String.mk (svg.data.drop insertIndex)
  else
    styleTag ++ "\n" ++ svg

/-- Outcomes of the external calls `generateStaticSVG` makes (the bpmn-js
engine inside JSDOM): whether the container element is found, the results
of `importXML`, `elementRegistry.getAll().length`, the viewport fit (the
zoom read back after `canvas.zoom('fit-viewport')`), `saveSVG`, the canvas
`viewbox().outer` dimensions, and whether the teardown calls
`viewer.destroy()` / `dom.window.close()` throw. -/
structure EngineOracle where
  containerExists : Bool := true
  importXML : Except JsError Unit := .ok ()
  elements : Nat := 1
  fit : Except JsError Rat := .ok 1
  saveSVG : Except JsError String := .ok ""
  viewbox : Option (Rat × Rat) := none
  destroy : Option JsError := none
  close : Option JsError := none

/-- JS `Math.round` on an exact rational `q = num/den`:
`⌊q + 1/2⌋ = ⌊(2*num + den) / (2*den)⌋`, written with integer floor
division so that it evaluates by kernel reduction. -/
def jsRound (q : Rat) : Int := Int.fdiv (2 * q.num + (q.den : Int)) (2 * (q.den : Int))

/-- The body of `generateStaticSVG`'s `try` block (after the two input
guards): container lookup, `importXML`, empty-diagram check, zoom and
viewport-fit logic, `saveSVG`, theming, and final dimensions. -/
def generatePrimary (o : EngineOracle) (bpmnXml : String) (config : SvgConfig)
    (elapsed : Nat) : Except SvgGenerationError SvgGenerationResult :=
  if !o.containerExists then
    .error { message := "Failed to create container element" }
  else
    match o.importXML with
    | .error e =>
      .error { message := "Failed to import BPMN XML: " ++ e.message
               bpmnXml := some bpmnXml, cause := some e }
    | .ok _ =>
      let emptyWarnings := if o.elements == 0 then ["BPMN diagram appears to be empty"] else []
      let zoomStep : Rat × List String :=
        if config.fitViewport && o.elements > 0 then
          match o.fit with
          | .ok currentZoom =>
            if currentZoom < config.minZoom then
              (config.minZoom, ["Zoom constrained to minimum: " ++ toString config.minZoom])
            else if currentZoom > config.maxZoom then
              (config.maxZoom, ["Zoom constrained to maximum: " ++ toString config.maxZoom])
            else
              (currentZoom, [])
          | .error e => (config.zoom, ["Zoom fit failed, using default: " ++ e.message])
        else (config.zoom, [])
      match o.saveSVG with
      | .error e =>
        .error { message := "Failed to generate SVG: " ++ e.message
                 bpmnXml := some bpmnXml, cause := some e }
      | .ok rawSvg =>
        let svg := if config.includeTheme then
            applyOrnlThemeToSvg rawSvg config.theme config.additionalCss
          else rawSvg
        let outer := o.viewbox.getD ((config.width : Rat), (config.height : Rat))
        .ok { svg := svg
              width := jsRound outer.1
              height := jsRound outer.2
              zoom := zoomStep.1
              processingTime := elapsed
              warnings := emptyWarnings ++ zoomStep.2 }

/-- The `finally` block of `generateStaticSVG`: a throwing
`viewer.destroy()` (only attempted when the viewer was created, i.e. the
container was found) or `dom.window.close()` is caught and downgraded to a
warning pushed onto the shared warnings array. -/
def cleanupWarnings (o : EngineOracle) (viewerCreated : Bool) : List String :=
  (if viewerCreated then
     match o.destroy with
     | some e => ["Viewer cleanup warning: " ++ e.message]
     | none => []
   else [])
  ++ (match o.close with
      | some e => ["DOM cleanup warning: " ++ e.message]
      | none => [])

/-- `generateStaticSVG` from `src/core/svg-generator.ts`: the two input
guards throw; otherwise the `try` body runs and the `finally` block
appends cleanup warnings to a successful result's warnings array (on
failure the pushed warnings are discarded with the local array and the
original error propagates). -/
def generateStaticSVG (o : EngineOracle) (bpmnXml : String)
    (options : SvgGenerationOptions := {}) (elapsed : Nat := 0) :
    Except SvgGenerationError SvgGenerationResult :=
  let config := spreadSvgOptions DEFAULT_SVG_OPTIONS options
  if bpmnXml == "" then
    .error { message := "Invalid BPMN XML: must be a non-empty string" }
  else if !(includes bpmnXml "<bpmn") && !(includes bpmnXml "<definitions") then
    .error { message := "Invalid BPMN XML: missing BPMN definitions", bpmnXml := some bpmnXml }
  else
    match generatePrimary o bpmnXml config elapsed with
    | .ok r => .ok { r with warnings := r.warnings ++ cleanupWarnings o o.containerExists }
    | .error e => .error e

/-! ## `src/utils/file-loader.ts` -/

/-- Caller-supplied `FileLoadOptions` (every field optional). -/
structure FileLoadOptions where
  timeout : Option Nat := none
  validate : Option Bool := none
  encoding : Option String := none
  maxSize : Option Nat := none
  headers : Option (List (String × String)) := none
deriving DecidableEq, Repr

/-- `Required<FileLoadOptions>`: the merged configuration. -/
structure FileConfig where
  timeout : Nat
  validate : Bool
  encoding : String
  maxSize : Nat
  headers : List (String × String)
deriving DecidableEq, Repr

/-- `DEFAULT_FILE_OPTIONS` from `src/utils/file-loader.ts`. -/
def DEFAULT_FILE_OPTIONS : FileConfig :=
  { timeout := 30000
    validate := true
    encoding := "utf-8"
    maxSize := 10485760
    headers := [] }

/-- The object spread `{ ...DEFAULT_FILE_OPTIONS, ...options }`. -/
def spreadFileOptions (base : FileConfig) (o : FileLoadOptions) : FileConfig :=
  { timeout := o.timeout.getD base.timeout
    validate := o.validate.getD base.validate
    encoding := o.encoding.getD base.encoding
    maxSize := o.maxSize.getD base.maxSize
    headers := o.headers.getD base.headers }

/-- The `FileLoadResult` record. -/
structure FileLoadResult where
  content : String
  size : Nat
  mimeType : Option String := none
  lastModified : Option String := none
  loadTime : Nat
  validation : Option ValidationResult := none
deriving DecidableEq, Repr

/-- The `FileLoadError` record (message, failing path, wrapped cause). -/
structure FileLoadError where
  message : String
  filePath : String
  cause : Option JsError := none
deriving DecidableEq, Repr

/-- The data `loadFromUrl` reads off a `fetch` `Response` (the
content-length header is modelled as its parsed numeric value when present
and numeric, since only `parseInt(header)` is consulted). -/
structure FetchResponse where
  ok : Bool := true
  status : Nat := 200
  statusText : String := "OK"
  contentLength : Option Nat := none
  contentType : Option String := none
  lastModified : Option String := none
  body : String := ""
deriving DecidableEq, Repr

/-- `loadFromUrl` from `src/utils/file-loader.ts`, parameterized by the
outcome of `fetch` (`Except.error` = fetch itself threw, e.g. network
failure or timeout abort): HTTP status check, declared-size check,
post-load size check against `maxSize` (UTF-8 byte length, as measured via
`TextEncoder`). -/
def loadFromUrl (resp : Except JsError FetchResponse) (options : FileConfig) :
    Except JsError FileLoadResult :=
  match resp with
  | .error e => .error e
  | .ok r =>
    if !r.ok then
      .error { message := "HTTP " ++ toString r.status ++ ": " ++ r.statusText }
    else if (match r.contentLength with
             | some n => decide (n > options.maxSize)
             | none => false) then
      .error { message := "File too large: " ++ toString (r.contentLength.getD 0)
                 ++ " bytes (max: " ++ toString options.maxSize ++ ")" }
    else
      let size := r.body.utf8ByteSize
      if size > options.maxSize then
        .error { message := "File too large: " ++ toString size
                   ++ " bytes (max: " ++ toString options.maxSize ++ ")" }
      else
        .ok { content := r.body
              size := size
              mimeType := r.contentType
              lastModified := r.lastModified
              loadTime := 0 }

/-- `loadBpmnFile` from `src/utils/file-loader.ts`: empty-path guard, the
fetch via `loadFromUrl` (any non-`FileLoadError` exception is wrapped as a
`FileLoadError` carrying the path and the cause), then optional BPMN
validation whose failure is also a `FileLoadError`.  `elapsed` is the
measured wall-clock duration recorded as `loadTime`. -/
def loadBpmnFile (resp : Except JsError FetchResponse) (filePath : String)
    (options : FileLoadOptions := {}) (elapsed : Nat := 0) :
    Except FileLoadError FileLoadResult :=
  let config := spreadFileOptions DEFAULT_FILE_OPTIONS options
  if filePath == "" then
    .error { message := "Invalid file path: must be a non-empty string", filePath := filePath }
  else
    match loadFromUrl resp config with
    | .error err =>
      .error { message := "Failed to load BPMN file: " ++ err.message
               filePath := filePath, cause := some err }
    | .ok result =>
      if config.validate then
        let validation := validateBpmnXml result.content
        let result := { result with validation := some validation }
        if !validation.isValid then
          .error { message := "Invalid BPMN content: " ++ String.intercalate ", " validation.errors
                   filePath := filePath }
        else
          .ok { result with loadTime := elapsed }
      else
        .ok { result with loadTime := elapsed }

/-- An entry of the module-level `fileCache` map. -/
structure CacheEntry where
  result : FileLoadResult
  timestamp : Nat
deriving DecidableEq, Repr

/-- The `fileCache` map, keyed by file path (first binding wins on
lookup, so `mapSet` replaces). -/
abbrev FileCache := List (String × CacheEntry)

/-- `Map.prototype.set`: bind `k` to `v`, replacing any previous binding. -/
def mapSet (m : FileCache) (k : String) (v : CacheEntry) : FileCache :=
  (k, v) :: m.filter (fun p => p.1 != k)

/-- `options.cacheTtl || 300000`: a missing — or `0`, which is falsy —
`cacheTtl` falls back to the 5-minute default. -/
def effectiveCacheTtl (cacheTtl : Option Nat) : Nat :=
  match cacheTtl with
  | some n => if n == 0 then 300000 else n
  | none => 300000

/-- Does the cache serve `filePath` at time `now` under time-to-live
`ttl`? -/
def cacheHit (cache : FileCache) (filePath : String) (ttl : Nat) (now : Nat) : Bool :=
  match cache.lookup filePath with
  | some cached => now - cached.timestamp < ttl
  | none => false

/-- The cache-miss path of `loadBpmnFileWithCache`: load fresh, and only
on success store a copy in the cache (a throwing `loadBpmnFile` propagates
before `fileCache.set` runs).  The `Bool` reports that a fresh load was
performed (hence, for a non-empty path, that `fetch` ran). -/
def loadFreshWithCache (resp : Except JsError FetchResponse) (elapsed : Nat)
    (cache : FileCache) (filePath : String) (options : FileLoadOptions) (now : Nat) :
    Except FileLoadError FileLoadResult × FileCache × Bool :=
  match loadBpmnFile resp filePath options elapsed with
  | .error e => (.error e, cache, true)
  | .ok result => (.ok result, mapSet cache filePath { result := result, timestamp := now }, true)

/-- `loadBpmnFileWithCache` from `src/utils/file-loader.ts`: serve a copy
(with `loadTime` reset to `0`) when a cached entry for the path is younger
than the effective time-to-live, otherwise load fresh and cache on
success.  State is passed explicitly: the result triple is (outcome, the
cache map afterwards, whether a fresh load was performed). -/
def loadBpmnFileWithCache (resp : Except JsError FetchResponse) (elapsed : Nat)
    (cache : FileCache) (filePath : String) (options : FileLoadOptions := {})
    (cacheTtl : Option Nat := none) (now : Nat := 0) :
    Except FileLoadError FileLoadResult × FileCache × Bool :=
  let ttl := effectiveCacheTtl cacheTtl
  match cache.lookup filePath with
  | some cached =>
    if now - cached.timestamp < ttl then
      (.ok { cached.result with loadTime := 0 }, cache, false)
    else
      loadFreshWithCache resp elapsed cache filePath options now
  | none => loadFreshWithCache resp elapsed cache filePath options now

/-! ## Claim theorems -/

/-- C8: the semantic BPMN color mapping is a pure derivation from the
palette: `TASK` equals `ORNL_COLORS.PRIMARY`, and `ERROR` and `END_EVENT`
both equal the same accent, `ORNL_ACCENTS.FORGE`. -/
theorem c8_semantic_colors_derivation :
    BPMN_SEMANTIC_COLORS.TASK = ORNL_COLORS.PRIMARY ∧
    BPMN_SEMANTIC_COLORS.ERROR = ORNL_ACCENTS.FORGE ∧
    BPMN_SEMANTIC_COLORS.END_EVENT = ORNL_ACCENTS.FORGE ∧
    BPMN_SEMANTIC_COLORS.END_EVENT = BPMN_SEMANTIC_COLORS.ERROR :=
  ⟨rfl, rfl, rfl, rfl⟩

/-- C9: palette lookup returns fixed literal hex strings (in particular
`PRIMARY = "#00662C"`), and every `ORNL_COLORS` and `ORNL_ACCENTS` value
matches `^#[0-9A-F]{6}$` case-insensitively. -/
theorem c9_palette_fixed_hex :
    ORNL_COLORS = { PRIMARY := "#00662C", SECONDARY := "#00454D", NEUTRAL := "#DBDCDB",
                    TEXT_PRIMARY := "#373A36", WHITE := "#FFFFFF", BLACK := "#000000" } ∧
    ORNL_ACCENTS = { FORGE := "#FE5000", SPARK := "#F5B800",
                     PLASMA := "#0077C8", PULSAR := "#702F8A" } ∧
    allPaletteValues.all matchesHexColor = true :=
  ⟨rfl, rfl, by decide⟩

/-- C4: `generateOrnlCssVariables` is a pure function of its options
record whose output reflects each caller-supplied field in place of the
built-in default, and the merge with `DEFAULT_ORNL_THEME` is a shallow
per-field last-write-wins override (`getD` on each field). -/
theorem c4_css_variables_override (o : BpmnThemeOptions) :
    generateOrnlCssVariables o = String.intercalate "; "
      [ "--ornl-primary: " ++ o.primaryColor.getD "#00662C",
        "--ornl-secondary: " ++ o.secondaryColor.getD "#00454D",
        "--ornl-background: " ++ o.backgroundColor.getD "#FFFFFF",
        "--ornl-text: " ++ o.textColor.getD "#373A36",
        "--ornl-error: " ++ o.errorColor.getD "#FE5000",
        "--ornl-font-family: " ++ o.fontFamily.getD "Inter, system-ui, -apple-system, sans-serif",
        "--ornl-font-size: " ++ o.fontSize.getD "12px",
        "--ornl-border-width: " ++ o.borderWidth.getD "1.5px",
        "--ornl-border-radius: " ++ o.borderRadius.getD "4px",
        "--bpmn-start-event: #F5B800",
        "--bpmn-end-event: #FE5000",
        "--bpmn-task: #00662C",
        "--bpmn-gateway: #0077C8",
        "--bpmn-sequence-flow: #373A36",
        "--bpmn-pool: #DBDCDB",
        "--bpmn-border: #00454D",
        "--bpmn-highlight: #702F8A" ] ∧
    spreadTheme DEFAULT_ORNL_THEME o =
      { primaryColor := o.primaryColor.getD DEFAULT_ORNL_THEME.primaryColor
        secondaryColor := o.secondaryColor.getD DEFAULT_ORNL_THEME.secondaryColor
        backgroundColor := o.backgroundColor.getD DEFAULT_ORNL_THEME.backgroundColor
        textColor := o.textColor.getD DEFAULT_ORNL_THEME.textColor
        errorColor := o.errorColor.getD DEFAULT_ORNL_THEME.errorColor
        fontFamily := o.fontFamily.getD DEFAULT_ORNL_THEME.fontFamily
        fontSize := o.fontSize.getD DEFAULT_ORNL_THEME.fontSize
        borderWidth := o.borderWidth.getD DEFAULT_ORNL_THEME.borderWidth
        borderRadius := o.borderRadius.getD DEFAULT_ORNL_THEME.borderRadius } :=
  ⟨rfl, rfl⟩

/-- C5: every string in which the counts of `'<'` and `'>'` differ gets at
least the malformed-XML warning from `validateBpmnXml` — in the named
module's structured result, and likewise in the result of the unnamed
variant module's `validateBpmnXml` whenever it returns one. -/
theorem c5_unbalanced_tags_warning (s : String)
    (h : countChar s '<' ≠ countChar s '>') :
    "XML structure may be malformed (unmatched tags)" ∈ (validateBpmnXml s).warnings ∧
    (∀ r, Part002.validateBpmnXml s = .ok r →
       "XML structure may be malformed (unmatched tags)" ∈ r.warnings) := by
  have hs : s ≠ "" := by
    intro hempty
    subst hempty
    exact h rfl
  have hb : (countChar s '<' != countChar s '>') = true := bne_iff_ne.mpr h
  refine ⟨by simp [validateBpmnXml, hs, hb], ?_⟩
  intro r hr
  unfold Part002.validateBpmnXml at hr
  rw [if_neg (by simpa using hs)] at hr
  by_cases h1 : (!(jsStartsWith (jsTrim s) "<")) = true
  · rw [if_pos h1] at hr
    simp at hr
  · rw [if_neg h1] at hr
    by_cases h2 : (!includes s "<bpmn" && !includes s "<definitions") = true
    · rw [if_pos h2] at hr
      simp at hr
    · rw [if_neg h2] at hr
      rw [if_pos hb] at hr
      simp only [Except.ok.injEq] at hr
      subst hr
      simp

/-- Witness for C5 at the concrete input `"<bpmn"`. -/
theorem c5_unbalanced_tags_warning_witness :
    countChar "<bpmn" '<' ≠ countChar "<bpmn" '>' ∧
    ("XML structure may be malformed (unmatched tags)" ∈ (validateBpmnXml "<bpmn").warnings ∧
     (∀ r, Part002.validateBpmnXml "<bpmn" = .ok r →
        "XML structure may be malformed (unmatched tags)" ∈ r.warnings)) :=
  ⟨by decide, c5_unbalanced_tags_warning "<bpmn" (by decide)⟩

/-- C2 counterexample: `"xmlns:bpmn"` has equal `'<'`/`'>'` counts (both
zero) and contains the namespace marker, yet `validateBpmnXml` reports it
invalid (it neither starts with `'<'` nor contains a definitions
element), refuting the claim that balanced counts plus a namespace marker
suffice for `isValid = true`. -/
theorem c2_counterexample :
    countChar "xmlns:bpmn" '<' = countChar "xmlns:bpmn" '>' ∧
    includes "xmlns:bpmn" "xmlns:bpmn" = true ∧
    (validateBpmnXml "xmlns:bpmn").isValid = false := by
  decide

/-- C2 amended: `validateBpmnXml` reports a string valid when its trimmed
form starts with `'<'`, it contains a namespace marker (`"xmlns:bpmn"` or
`"http://www.omg.org/spec/BPMN"`), and it contains a definitions element
(`"<definitions"` or `"<bpmn:definitions"`); balanced `'<'`/`'>'` counts
play no role in validity (they only control a warning). -/
theorem c2_amended_validity (s : String)
    (h1 : jsStartsWith (jsTrim s) "<" = true)
    (h2 : includes s "xmlns:bpmn" = true ∨ includes s "http://www.omg.org/spec/BPMN" = true)
    (h3 : includes s "<definitions" = true ∨ includes s "<bpmn:definitions" = true) :
    (validateBpmnXml s).isValid = true := by
  have hs : s ≠ "" := by
    intro hempty
    subst hempty
    exact absurd h1 (by decide)
  rcases h2 with h2 | h2 <;> rcases h3 with h3 | h3 <;>
    simp [validateBpmnXml, hs, h1, h2, h3]

/-- Sample well-formed BPMN document used as a concrete witness input. -/
def sampleValidBpmn : String :=
  "<bpmn:definitions xmlns:bpmn=\"http://www.omg.org/spec/BPMN/20100524/MODEL\"><bpmn:process/></bpmn:definitions>"

/-- Witness for the amended C2 at a concrete well-formed document. -/
theorem c2_amended_validity_witness :
    (validateBpmnXml sampleValidBpmn).isValid = true :=
  c2_amended_validity sampleValidBpmn (by decide) (Or.inl (by decide)) (Or.inr (by decide))

/-- A `ValidationResult` whose `isValid` is its errors list's emptiness is
invalid exactly when that list is non-empty. -/
theorem validationResult_invalid_iff (E W : List String) :
    (({ isValid := E.isEmpty, errors := E, warnings := W } : ValidationResult).isValid = false
      ↔ ({ isValid := E.isEmpty, errors := E, warnings := W } : ValidationResult).errors ≠ []) := by
  cases E <;> simp

/-- C1 counterexample: the `validateBpmnXml` of the unnamed svg-generator
variant module — one of the two implementations the claim covers — throws
an `SvgGenerationError` on empty input instead of returning a structured
`{isValid, errors, warnings}` result, so `validateBpmnXml` is not the only
non-throwing path and `generateStaticSVG` is not the only promoter of
these checks to thrown errors. -/
theorem c1_counterexample :
    Part002.validateBpmnXml "" = .error { message := "BPMN XML must be a non-empty string" } :=
  rfl

/-- C1 amended: the `validateBpmnXml` of `src/core/svg-generator.ts`
reports failures structurally — empty input yields `isValid = false` with
a descriptive error, and in general `isValid = false` exactly when the
errors list is non-empty — while the render path `generateStaticSVG`, and
likewise the variant `validateBpmnXml` of the unnamed svg-generator
module, promote the same empty-input check to a thrown
`SvgGenerationError`. -/
theorem c1_amended_validation_reporting :
    validateBpmnXml "" =
      { isValid := false, errors := ["BPMN XML must be a non-empty string"], warnings := [] } ∧
    (∀ s, (validateBpmnXml s).isValid = false ↔ (validateBpmnXml s).errors ≠ []) ∧
    (∀ (o : EngineOracle) (opts : SvgGenerationOptions) (el : Nat),
      generateStaticSVG o "" opts el =
        .error { message := "Invalid BPMN XML: must be a non-empty string" }) ∧
    Part002.validateBpmnXml "" = .error { message := "BPMN XML must be a non-empty string" } := by
  refine ⟨rfl, ?_, fun o opts el => rfl, rfl⟩
  intro s
  by_cases hs : s = ""
  · subst hs
    decide
  · unfold validateBpmnXml
    rw [if_neg (by simpa using hs)]
    exact validationResult_invalid_iff _ _

/-- Every error escaping the `try` body of `generateStaticSVG` is one of:
the container guard, a wrapped `importXML` failure, or a wrapped `saveSVG`
failure. -/
theorem generatePrimary_error_cases (o : EngineOracle) (xml : String) (cfg : SvgConfig)
    (el : Nat) (e : SvgGenerationError)
    (h : generatePrimary o xml cfg el = .error e) :
    e = { message := "Failed to create container element" } ∨
    (∃ err, o.importXML = .error err ∧
       e = { message := "Failed to import BPMN XML: " ++ err.message
             bpmnXml := some xml, cause := some err }) ∨
    (∃ err, o.saveSVG = .error err ∧
       e = { message := "Failed to generate SVG: " ++ err.message
             bpmnXml := some xml, cause := some err }) := by
  unfold generatePrimary at h
  by_cases hc : o.containerExists = true
  · rw [if_neg (by simp [hc])] at h
    cases him : o.importXML with
    | error ie =>
      rw [him] at h
      dsimp only at h
      simp only [Except.error.injEq] at h
      exact Or.inr (Or.inl ⟨ie, rfl, h.symm⟩)
    | ok u =>
      rw [him] at h
      dsimp only at h
      cases hsv : o.saveSVG with
      | error se =>
        rw [hsv] at h
        dsimp only at h
        simp only [Except.error.injEq] at h
        exact Or.inr (Or.inr ⟨se, rfl, h.symm⟩)
      | ok raw =>
        rw [hsv] at h
        dsimp only at h
        simp at h
  · rw [if_pos (by simpa using hc)] at h
    simp only [Except.error.injEq] at h
    exact Or.inl h.symm

/-- C7 counterexample: for empty input, `generateStaticSVG` throws an
`SvgGenerationError` that does not carry the offending BPMN XML (the
source constructs it with the message only, so `bpmnXml` is undefined),
refuting "every failure ... carries the offending BPMN XML". -/
theorem c7_counterexample :
    generateStaticSVG { } "" { } 0 =
      .error { message := "Invalid BPMN XML: must be a non-empty string" } ∧
    ({ message := "Invalid BPMN XML: must be a non-empty string" } : SvgGenerationError).bpmnXml
      = none :=
  ⟨rfl, rfl⟩

/-- C7 amended: every failure of `loadBpmnFile` is a `FileLoadError`
carrying the failing path and, when an underlying exception caused it,
wrapping that exception as its `cause`; every failure of
`generateStaticSVG` is an `SvgGenerationError` that wraps the underlying
exception as its `cause` when one caused it, and carries the offending
XML except for the empty-input and container-creation guards, which are
constructed without it.  No other error shape escapes either operation
(the possible errors are characterized exhaustively). -/
theorem c7_amended_error_surfacing :
    (∀ (resp : Except JsError FetchResponse) (fp : String) (opts : FileLoadOptions)
       (el : Nat) (e : FileLoadError),
       loadBpmnFile resp fp opts el = .error e →
       e.filePath = fp ∧
       (e = { message := "Invalid file path: must be a non-empty string", filePath := fp } ∨
        (∃ err, loadFromUrl resp (spreadFileOptions DEFAULT_FILE_OPTIONS opts) = .error err ∧
           e = { message := "Failed to load BPMN file: " ++ err.message
                 filePath := fp, cause := some err }) ∨
        (∃ r, loadFromUrl resp (spreadFileOptions DEFAULT_FILE_OPTIONS opts) = .ok r ∧
           e = { message := "Invalid BPMN content: "
                   ++ String.intercalate ", " (validateBpmnXml r.content).errors
                 filePath := fp }))) ∧
    (∀ (o : EngineOracle) (xml : String) (opts : SvgGenerationOptions) (el : Nat)
       (e : SvgGenerationError),
       generateStaticSVG o xml opts el = .error e →
       (e = { message := "Invalid BPMN XML: must be a non-empty string" } ∨
        e = { message := "Invalid BPMN XML: missing BPMN definitions", bpmnXml := some xml } ∨
        e = { message := "Failed to create container element" } ∨
        (∃ err, o.importXML = .error err ∧
           e = { message := "Failed to import BPMN XML: " ++ err.message
                 bpmnXml := some xml, cause := some err }) ∨
        (∃ err, o.saveSVG = .error err ∧
           e = { message := "Failed to generate SVG: " ++ err.message
                 bpmnXml := some xml, cause := some err }))) := by
  constructor
  · intro resp fp opts el e h
    simp only [loadBpmnFile] at h
    by_cases hfp : fp = ""
    · rw [if_pos (by simpa using hfp)] at h
      simp only [Except.error.injEq] at h
      subst h
      exact ⟨rfl, Or.inl rfl⟩
    · rw [if_neg (by simpa using hfp)] at h
      cases hurl : loadFromUrl resp (spreadFileOptions DEFAULT_FILE_OPTIONS opts) with
      | error err =>
        rw [hurl] at h
        dsimp only at h
        simp only [Except.error.injEq] at h
        subst h
        exact ⟨rfl, Or.inr (Or.inl ⟨err, rfl, rfl⟩)⟩
      | ok result =>
        rw [hurl] at h
        dsimp only at h
        by_cases hv : (spreadFileOptions DEFAULT_FILE_OPTIONS opts).validate = true
        · rw [if_pos hv] at h
          by_cases hval : (validateBpmnXml result.content).isValid = true
          · rw [if_neg (by simp [hval])] at h
            simp at h
          · rw [if_pos (by simpa using hval)] at h
            simp only [Except.error.injEq] at h
            subst h
            exact ⟨rfl, Or.inr (Or.inr ⟨result, rfl, rfl⟩)⟩
        · rw [if_neg hv] at h
          simp at h
  · intro o xml opts el e h
    simp only [generateStaticSVG] at h
    by_cases hx : xml = ""
    · rw [if_pos (by simpa using hx)] at h
      simp only [Except.error.injEq] at h
      subst h
      exact Or.inl rfl
    · rw [if_neg (by simpa using hx)] at h
      by_cases hm : (!includes xml "<bpmn" && !includes xml "<definitions") = true
      · rw [if_pos hm] at h
        simp only [Except.error.injEq] at h
        subst h
        exact Or.inr (Or.inl rfl)
      · rw [if_neg hm] at h
        cases hp : generatePrimary o xml (spreadSvgOptions DEFAULT_SVG_OPTIONS opts) el with
        | ok r =>
          rw [hp] at h
          dsimp only at h
          simp at h
        | error e2 =>
          rw [hp] at h
          dsimp only at h
          simp only [Except.error.injEq] at h
          subst h
          exact Or.inr (Or.inr (generatePrimary_error_cases o xml _ el _ hp))

/-- Witness for the amended C7: the missing-definitions failure of
`generateStaticSVG` at the concrete input `"x"` falls in the
characterized set. -/
theorem c7_amended_error_surfacing_witness :
    (({ message := "Invalid BPMN XML: missing BPMN definitions", bpmnXml := some "x" }
        : SvgGenerationError) =
      { message := "Invalid BPMN XML: must be a non-empty string" } ∨
     ({ message := "Invalid BPMN XML: missing BPMN definitions", bpmnXml := some "x" }
        : SvgGenerationError) =
      { message := "Invalid BPMN XML: missing BPMN definitions", bpmnXml := some "x" } ∨
     ({ message := "Invalid BPMN XML: missing BPMN definitions", bpmnXml := some "x" }
        : SvgGenerationError) =
      { message := "Failed to create container element" } ∨
     (∃ err, ({ } : EngineOracle).importXML = .error err ∧
        ({ message := "Invalid BPMN XML: missing BPMN definitions", bpmnXml := some "x" }
           : SvgGenerationError) =
          { message := "Failed to import BPMN XML: " ++ err.message
            bpmnXml := some "x", cause := some err }) ∨
     (∃ err, ({ } : EngineOracle).saveSVG = .error err ∧
        ({ message := "Invalid BPMN XML: missing BPMN definitions", bpmnXml := some "x" }
           : SvgGenerationError) =
          { message := "Failed to generate SVG: " ++ err.message
            bpmnXml := some "x", cause := some err })) :=
  c7_amended_error_surfacing.2 { } "x" { } 0
    { message := "Invalid BPMN XML: missing BPMN definitions", bpmnXml := some "x" } (by rfl)

/-- The same engine oracle with both teardown failures removed: the run in
which `viewer.destroy()` and `dom.window.close()` succeed. -/
def clearTeardown (o : EngineOracle) : EngineOracle :=
  { o with destroy := none, close := none }

/-- The `try` body never consults the teardown outcomes. -/
theorem generatePrimary_clearTeardown (o : EngineOracle) (xml : String)
    (cfg : SvgConfig) (el : Nat) :
    generatePrimary (clearTeardown o) xml cfg el = generatePrimary o xml cfg el :=
  rfl

/-- A successful `try` body implies the container element was found. -/
theorem generatePrimary_ok_container {o : EngineOracle} {xml : String}
    {cfg : SvgConfig} {el : Nat} {r : SvgGenerationResult}
    (h : generatePrimary o xml cfg el = .ok r) : o.containerExists = true := by
  by_cases hc : o.containerExists = true
  · exact hc
  · unfold generatePrimary at h
    rw [if_pos (by simpa using hc)] at h
    simp at h

/-- C6: a failure thrown by `viewer.destroy()` or `dom.window.close()`
during cleanup never changes the primary outcome of `generateStaticSVG`.
Comparing a run with teardown failures against the same run without them:
a primary error is rethrown unchanged, and a primary success returns the
same result with only the cleanup warnings appended to its warnings list
— one entry per failing teardown call. -/
theorem c6_teardown_downgraded (o : EngineOracle) (xml : String)
    (opts : SvgGenerationOptions) (el : Nat) :
    (∀ e, generateStaticSVG (clearTeardown o) xml opts el = .error e →
          generateStaticSVG o xml opts el = .error e) ∧
    (∀ r, generateStaticSVG (clearTeardown o) xml opts el = .ok r →
          generateStaticSVG o xml opts el =
            .ok { r with warnings := r.warnings ++ cleanupWarnings o true } ∧
          (∀ je, o.destroy = some je →
             ("Viewer cleanup warning: " ++ je.message) ∈ cleanupWarnings o true) ∧
          (∀ je, o.close = some je →
             ("DOM cleanup warning: " ++ je.message) ∈ cleanupWarnings o true)) := by
  constructor
  · intro e h
    simp only [generateStaticSVG] at h ⊢
    by_cases hx : xml = ""
    · rw [if_pos (by simpa using hx)] at h ⊢
      exact h
    · rw [if_neg (by simpa using hx)] at h ⊢
      by_cases hm : (!includes xml "<bpmn" && !includes xml "<definitions") = true
      · rw [if_pos hm] at h ⊢
        exact h
      · rw [if_neg hm] at h ⊢
        rw [generatePrimary_clearTeardown] at h
        cases hp : generatePrimary o xml (spreadSvgOptions DEFAULT_SVG_OPTIONS opts) el with
        | ok r =>
          rw [hp] at h
          dsimp only at h
          simp at h
        | error e2 =>
          rw [hp] at h
          dsimp only at h ⊢
          exact h
  · intro r h
    refine ⟨?_, ?_, ?_⟩
    · simp only [generateStaticSVG] at h ⊢
      by_cases hx : xml = ""
      · rw [if_pos (by simpa using hx)] at h
        simp at h
      · rw [if_neg (by simpa using hx)] at h ⊢
        by_cases hm : (!includes xml "<bpmn" && !includes xml "<definitions") = true
        · rw [if_pos hm] at h
          simp at h
        · rw [if_neg hm] at h ⊢
          rw [generatePrimary_clearTeardown] at h
          cases hp : generatePrimary o xml (spreadSvgOptions DEFAULT_SVG_OPTIONS opts) el with
          | error e2 =>
            rw [hp] at h
            dsimp only at h
            simp at h
          | ok r0 =>
            have hcont := generatePrimary_ok_container hp
            rw [hp] at h
            dsimp only at h ⊢
            simp only [Except.ok.injEq] at h ⊢
            subst h
            simp [clearTeardown, cleanupWarnings, hcont]
    · intro je hje
      simp [cleanupWarnings, hje]
    · intro je hje
      simp [cleanupWarnings, hje]

/-- Concrete oracle for the C6 witness: both teardown calls fail, the rest
of the pipeline succeeds. -/
def teardownFailOracle : EngineOracle :=
  { saveSVG := .ok "<svg><g/></svg>"
    destroy := some { message := "boom" }
    close := some { message := "crash" } }

/-- Witness for C6: with both teardown calls failing, the successful run
still returns its result, with the two cleanup warnings appended. -/
theorem c6_teardown_downgraded_witness :
    generateStaticSVG teardownFailOracle "<bpmn:definitions/>" { includeTheme := some false } 0 =
      .ok { svg := "<svg><g/></svg>", width := 800, height := 600, zoom := 1,
            processingTime := 0,
            warnings := [] ++ cleanupWarnings teardownFailOracle true } ∧
    (∀ je, teardownFailOracle.destroy = some je →
       ("Viewer cleanup warning: " ++ je.message) ∈ cleanupWarnings teardownFailOracle true) ∧
    (∀ je, teardownFailOracle.close = some je →
       ("DOM cleanup warning: " ++ je.message) ∈ cleanupWarnings teardownFailOracle true) :=
  (c6_teardown_downgraded teardownFailOracle "<bpmn:definitions/>"
      { includeTheme := some false } 0).2
    { svg := "<svg><g/></svg>", width := 800, height := 600, zoom := 1,
      processingTime := 0, warnings := [] }
    (by rfl)


/-- A fetch layer returning a well-formed BPMN document. -/
def respOkSample : Except JsError FetchResponse := .ok { body := sampleValidBpmn }

/-- The result of the first (fresh, successful) cached load of
`respOkSample` with `elapsed = 7`. -/
def c3FirstResult : FileLoadResult :=
  { content := sampleValidBpmn
    size := sampleValidBpmn.utf8ByteSize
    mimeType := none
    lastModified := none
    loadTime := 7
    validation := some { isValid := true, errors := [], warnings := [] } }

/-- Cache state after the first load at `t0 = 100` with `cacheTtl = 0`. -/
def c3CacheAfterFirst : FileCache :=
  (loadBpmnFileWithCache respOkSample 7 [] "process.bpmn" { } (some 0) 100).2.1

/-- Cache state after the first load at `t0 = 100` with `cacheTtl = 10`. -/
def c3CacheAfterFirst10 : FileCache :=
  mapSet [] "process.bpmn" { result := c3FirstResult, timestamp := 100 }

/-- `Map.prototype.set` followed by `Map.prototype.get` on the same key
returns the value just stored. -/
theorem lookup_mapSet_self (m : FileCache) (k : String) (v : CacheEntry) :
    (mapSet m k v).lookup k = some v := by
  simp [mapSet, List.lookup]

/-- A `loadFreshWithCache` call that reports a successful fresh load did
run `loadBpmnFile` successfully and stored the result at `now`. -/
theorem loadFresh_ok {resp : Except JsError FetchResponse} {el : Nat} {cache : FileCache}
    {fp : String} {opts : FileLoadOptions} {now : Nat} {r1 : FileLoadResult} {cache1 : FileCache}
    (h : loadFreshWithCache resp el cache fp opts now = (.ok r1, cache1, true)) :
    loadBpmnFile resp fp opts el = .ok r1 ∧
    cache1 = mapSet cache fp { result := r1, timestamp := now } := by
  unfold loadFreshWithCache at h
  cases hb : loadBpmnFile resp fp opts el with
  | error e =>
    rw [hb] at h
    dsimp only at h
    simp at h
  | ok res =>
    rw [hb] at h
    dsimp only at h
    simp only [Prod.mk.injEq] at h
    obtain ⟨h1, h2, -⟩ := h
    cases h1
    exact ⟨rfl, h2.symm⟩

/-- A `loadBpmnFileWithCache` call that reports a successful fresh load
did run `loadBpmnFile` successfully and stored the result at `now`. -/
theorem withCache_fresh_ok {resp : Except JsError FetchResponse} {el : Nat} {cache : FileCache}
    {fp : String} {opts : FileLoadOptions} {ttl : Option Nat} {t0 : Nat}
    {r1 : FileLoadResult} {cache1 : FileCache}
    (h : loadBpmnFileWithCache resp el cache fp opts ttl t0 = (.ok r1, cache1, true)) :
    loadBpmnFile resp fp opts el = .ok r1 ∧
    cache1 = mapSet cache fp { result := r1, timestamp := t0 } := by
  simp only [loadBpmnFileWithCache] at h
  cases hl : cache.lookup fp with
  | none =>
    rw [hl] at h
    dsimp only at h
    exact loadFresh_ok h
  | some cached =>
    rw [hl] at h
    dsimp only at h
    by_cases hfr : t0 - cached.timestamp < effectiveCacheTtl ttl
    · rw [if_pos hfr] at h
      simp at h
    · rw [if_neg hfr] at h
      exact loadFresh_ok h

set_option maxRecDepth 40000 in
/-- C3 counterexample: with a configured `cacheTtl` of `0` — which is
falsy, so `options.cacheTtl || 300000` silently replaces it with the
5-minute default — a second call 5 ms after the first successful load is
at-or-past the configured TTL yet is served from the cache without
invoking the network layer. -/
theorem c3_counterexample :
    (∃ r1, (loadBpmnFileWithCache respOkSample 7 [] "process.bpmn" { } (some 0) 100).1 = .ok r1) ∧
    (loadBpmnFileWithCache respOkSample 7 [] "process.bpmn" { } (some 0) 100).2.2 = true ∧
    100 + 0 ≤ 105 ∧
    (loadBpmnFileWithCache respOkSample 7 c3CacheAfterFirst "process.bpmn" { }
        (some 0) 105).2.2 = false :=
  ⟨⟨c3FirstResult, rfl⟩, rfl, by decide, rfl⟩

/-- C3 amended: after a fresh successful load of a key at time `t0` under
a configured `cacheTtl` of `n`, a second call strictly less than `n`
after `t0` is served from the cache — equal `content`, `loadTime` reset
to 0, cache unchanged, no fresh load — while, provided `n` is positive
(a zero `cacheTtl` is falsy and silently becomes the 300000 ms default),
a call at or past `t0 + n` performs a fresh load again. -/
theorem c3_amended_cache_ttl
    (resp0 : Except JsError FetchResponse) (el0 : Nat) (cache0 : FileCache)
    (fp : String) (opts : FileLoadOptions) (n : Nat) (t0 : Nat)
    (r1 : FileLoadResult) (cache1 : FileCache)
    (h1 : loadBpmnFileWithCache resp0 el0 cache0 fp opts (some n) t0 = (.ok r1, cache1, true)) :
    ∀ (resp1 : Except JsError FetchResponse) (el1 : Nat) (t1 : Nat),
      (t1 - t0 < n →
        loadBpmnFileWithCache resp1 el1 cache1 fp opts (some n) t1 =
          (.ok { r1 with loadTime := 0 }, cache1, false)) ∧
      (0 < n → t0 + n ≤ t1 →
        (loadBpmnFileWithCache resp1 el1 cache1 fp opts (some n) t1).2.2 = true) := by
  obtain ⟨hload, hcache⟩ := withCache_fresh_ok h1
  intro resp1 el1 t1
  have hlook : cache1.lookup fp = some { result := r1, timestamp := t0 } := by
    rw [hcache]
    exact lookup_mapSet_self cache0 fp _
  constructor
  · intro hlt
    have hn : n ≠ 0 := by omega
    have httl : effectiveCacheTtl (some n) = n := by
      simp [effectiveCacheTtl, hn]
    simp only [loadBpmnFileWithCache, hlook, httl]
    rw [if_pos hlt]
  · intro hn hle
    have httl : effectiveCacheTtl (some n) = n := by
      simp [effectiveCacheTtl, Nat.pos_iff_ne_zero.mp hn]
    have hge : ¬ (t1 - t0 < n) := by omega
    simp only [loadBpmnFileWithCache, hlook, httl]
    rw [if_neg hge]
    unfold loadFreshWithCache
    cases loadBpmnFile resp1 fp opts el1 <;> rfl

set_option maxRecDepth 40000 in
/-- Witness for the amended C3 with `cacheTtl = 10`: the second call at
`t = 105 < 100 + 10` is served from the cache without a fresh load. -/
theorem c3_amended_cache_ttl_witness :
    loadBpmnFileWithCache respOkSample 9 c3CacheAfterFirst10 "process.bpmn" { }
        (some 10) 105 =
      (.ok { c3FirstResult with loadTime := 0 }, c3CacheAfterFirst10, false) :=
  ((c3_amended_cache_ttl respOkSample 7 [] "process.bpmn" { } 10 100
      c3FirstResult c3CacheAfterFirst10 rfl) respOkSample 9 105).1 (by decide)

/-- C10: a failing `loadBpmnFile` inside `loadBpmnFileWithCache` leaves
the cache map unchanged (the exception propagates before
`fileCache.set`), the error is surfaced as-is, and any later call with
the same key again performs a fresh load rather than serving a failed
result. -/
theorem c10_no_cache_on_failure
    (resp : Except JsError FetchResponse) (el : Nat) (cache : FileCache)
    (fp : String) (opts : FileLoadOptions) (cacheTtl : Option Nat) (t1 : Nat)
    (e : FileLoadError)
    (hfail : loadBpmnFile resp fp opts el = .error e)
    (hmiss : cacheHit cache fp (effectiveCacheTtl cacheTtl) t1 = false) :
    loadBpmnFileWithCache resp el cache fp opts cacheTtl t1 = (.error e, cache, true) ∧
    ∀ (resp2 : Except JsError FetchResponse) (el2 : Nat) (t2 : Nat), t1 ≤ t2 →
      (loadBpmnFileWithCache resp2 el2 cache fp opts cacheTtl t2).2.2 = true := by
  constructor
  · simp only [loadBpmnFileWithCache]
    cases hl : cache.lookup fp with
    | none =>
      dsimp only
      unfold loadFreshWithCache
      rw [hfail]
    | some cached =>
      have hcond : ¬ (t1 - cached.timestamp < effectiveCacheTtl cacheTtl) := by
        unfold cacheHit at hmiss
        rw [hl] at hmiss
        dsimp only at hmiss
        simpa using hmiss
      dsimp only
      rw [if_neg hcond]
      unfold loadFreshWithCache
      rw [hfail]
  · intro resp2 el2 t2 ht
    simp only [loadBpmnFileWithCache]
    cases hl : cache.lookup fp with
    | none =>
      dsimp only
      unfold loadFreshWithCache
      cases loadBpmnFile resp2 fp opts el2 <;> rfl
    | some cached =>
      have hcond1 : ¬ (t1 - cached.timestamp < effectiveCacheTtl cacheTtl) := by
        unfold cacheHit at hmiss
        rw [hl] at hmiss
        dsimp only at hmiss
        simpa using hmiss
      have hcond : ¬ (t2 - cached.timestamp < effectiveCacheTtl cacheTtl) := by
        omega
      dsimp only
      rw [if_neg hcond]
      unfold loadFreshWithCache
      cases loadBpmnFile resp2 fp opts el2 <;> rfl

/-- A fetch layer whose call fails outright (network down). -/
def respFail : Except JsError FetchResponse := .error { message := "network down" }

/-- Witness for C10 at a concrete failing network call on an empty cache. -/
theorem c10_no_cache_on_failure_witness :
    loadBpmnFileWithCache respFail 3 [] "a.bpmn" { } none 50 =
      (.error { message := "Failed to load BPMN file: network down", filePath := "a.bpmn",
                cause := some { message := "network down" } }, [], true) :=
  (c10_no_cache_on_failure respFail 3 [] "a.bpmn" { } none 50
      { message := "Failed to load BPMN file: network down", filePath := "a.bpmn",
        cause := some { message := "network down" } }
      rfl rfl).1

end SdlBpmn
